import Mathlib

/-!
Shallow embedding of `src/sde_scrapper.py` (SDE BU notifications scraper).

The Python program scrapes a notifications page, diffs the fetched titles
against a JSON snapshot file, formats a Telegram message, sends it, and
persists the fresh snapshot only when the send reported success.  The
embedding below translates each function of the source into a pure Lean
function; external effects (the network fetch, the Telegram channel, the
filesystem) are passed in as explicit parameters describing their outcome.
-/

/-- An announcement record.  In the Python source a record is a dict with a
`"title"` key and, possibly, a `"url"` key; `url = none` models the key being
absent.  Python `==` on such dicts is structural equality, modelled by the
derived decidable equality. -/
structure NewsItem where
  title : String
  url : Option String
deriving DecidableEq, Repr

/-- The snapshot shape `{"news": [...]}` used throughout the source. -/
structure NewsData where
  news : List NewsItem
deriving DecidableEq, Repr

/-- The configuration returned by `get_env_config` (lines 41-52):
`telegram_token`, `telegram_chat_id`, `notification_time`, each defaulting to
a string (possibly empty). -/
structure Config where
  telegram_token : String
  telegram_chat_id : String
  notification_time : String
deriving DecidableEq, Repr

/-- `find_new_items` (lines 119-124):
`[item for item in current_data["news"] if item not in previous_data["news"]]`,
wrapped back into the `{"news": ...}` shape. -/
def find_new_items (current_data previous_data : NewsData) : NewsData :=
  { news := current_data.news.filter (fun item => decide (item ∉ previous_data.news)) }

/-- Result of one call of `send_telegram_message_async`: the boolean the
function returns, together with how many times the channel send
(`application.bot.send_message`) was invoked. -/
structure SendResult where
  ok : Bool
  attempts : Nat
deriving DecidableEq, Repr

/-- `send_telegram_message_async` (lines 129-146).  The guard
`if not config["telegram_token"] or not config["telegram_chat_id"]` tests
string truthiness, i.e. emptiness; when it fires the function returns `False`
without touching the network.  Otherwise `bot.send_message` is called once
inside a `try`; `channelOk` says whether that single call succeeds
(`True` returned) or raises (exception caught, `False` returned). -/
def send_telegram_message_async (message : String) (config : Config)
    (channelOk : Bool) : SendResult :=
  if config.telegram_token = "" ∨ config.telegram_chat_id = "" then
    { ok := false, attempts := 0 }
  else
    { ok := channelOk, attempts := 1 }

/-- `send_telegram_message` (lines 148-150): the synchronous wrapper around
the async function (`asyncio.run`). -/
def send_telegram_message (message : String) (config : Config)
    (channelOk : Bool) : SendResult :=
  send_telegram_message_async message config channelOk

/-- The horizontal separator line used by `format_message`. -/
def sepLine : String := "━━━━━━━━━━━━━━━━━━━━━━\n"

/-- The suffix appended for an item's link: `if item.get('url'):` is a
truthiness test, so the link is added exactly when the `url` key is present
with a non-empty value. -/
def urlSuffix (item : NewsItem) : String :=
  match item.url with
  | none => ""
  | some u => if u = "" then "" else " - [Link](" ++ u ++ ")"

/-- The loop of lines 163-167: `for i, item in enumerate(new_items["news"], 1)`,
each line `*{i}.* {title}` plus optional link. -/
def newLines : Nat → List NewsItem → String
  | _, [] => ""
  | i, item :: rest =>
    "*" ++ toString i ++ ".* " ++ item.title ++ urlSuffix item ++ "\n"
      ++ newLines (i + 1) rest

/-- The loop of lines 175-179: `for i, item in enumerate(previous_data["news"], 1)`,
each line `{i}. {title}` plus optional link. -/
def existingLines : Nat → List NewsItem → String
  | _, [] => ""
  | i, item :: rest =>
    toString i ++ ". " ++ item.title ++ urlSuffix item ++ "\n"
      ++ existingLines (i + 1) rest

/-- `format_message` (lines 152-188), written in the same accumulating style
as the Python source.  `current_date` stands for
`datetime.now().strftime('%d-%m-%Y')`; `if new_items["news"]:` and
`if previous_data["news"]:` are list-truthiness tests, i.e. non-emptiness. -/
def format_message (current_date : String) (new_items previous_data : NewsData) :
    String :=
  let m0 := "*📢 SDE BU Notifications Update - " ++ current_date ++ "*\n\n"
  let m1 :=
    if new_items.news = [] then m0
    else m0 ++ "🔔 *NEW NOTIFICATIONS:*\n" ++ sepLine
            ++ newLines 1 new_items.news ++ "\n"
  let m2 := m1 ++ "📋 *EXISTING NOTIFICATIONS:*\n" ++ sepLine
  let m3 :=
    if previous_data.news = [] then m2 ++ "No existing notifications.\n"
    else m2 ++ existingLines 1 previous_data.news
  m3 ++ "\n" ++ sepLine
     ++ "_Note: This is an automated notification from the SDE BU Scraper Service_"

/-- `scrape_website` (lines 88-117), restricted to its extraction logic.
`fetchOk` is whether the HTTP request and parsing complete without raising
(any exception is caught and yields `{"news": []}`); `sectionPresent` is the
truthiness of `soup.find('div', class_='admissions_contents')`; `anchors`
lists, for each `views-field-title` element, the anchor text of its
`span.field-content > a` when present (`none` when the span or the `a` is
missing, in which case the element contributes no record).  Each record
appended is `{"title": title.strip()}` — a single `title` field holding the
whitespace-trimmed anchor text, and never a `url` field. -/
def scrape_website (fetchOk : Bool) (sectionPresent : Bool)
    (anchors : List (Option String)) : NewsData :=
  if fetchOk then
    if sectionPresent then
      { news := anchors.filterMap (fun a =>
          a.map (fun t => { title := t.trim, url := none })) }
    else { news := [] }
  else { news := [] }

/-- A minimal JSON value type, for the parts of the program that handle the
state file's raw contents without assuming its shape. -/
inductive Json where
  | null
  | bool (b : Bool)
  | num (n : Int)
  | str (s : String)
  | arr (elems : List Json)
  | obj (fields : List (String × Json))

/-- Python `value[key]` on a parsed JSON value: `some` the mapped value when
`value` is a dict containing `key`, `none` when the subscript raises
(`KeyError` on a dict without the key, `TypeError` on a non-dict). -/
def jsonGet (j : Json) (k : String) : Option Json :=
  match j with
  | .obj fields => fields.lookup k
  | _ => none

/-- JSON serialization of one record: fetched records carry only `"title"`;
a record with a url serializes with both keys. -/
def itemToJson (item : NewsItem) : Json :=
  match item.url with
  | none => .obj [("title", .str item.title)]
  | some u => .obj [("title", .str item.title), ("url", .str u)]

/-- JSON serialization of the snapshot shape written by `save_data`. -/
def dataToJson (d : NewsData) : Json :=
  .obj [("news", .arr (d.news.map itemToJson))]

/-- The state of the snapshot file on disk, as far as a reader can tell:
absent, present but not valid JSON (`json.load` raises), or present and
parsing to a JSON value. -/
inductive FileState where
  | absent
  | corrupt
  | content (j : Json)

/-- `load_previous_data` (lines 54-71).  If the file exists, `json.load` is
run on it and the parsed value is returned as-is, with no validation of its
shape; if the file does not exist, or any step raises (unreadable file,
parse error), the function returns `{"news": []}`. -/
def load_previous_data : FileState → Json
  | .absent => .obj [("news", .arr [])]
  | .corrupt => .obj [("news", .arr [])]
  | .content j => j

/-- `save_data` (lines 73-86).  The file is opened with mode `'w'`, which
truncates it immediately, and `json.dump` then streams the serialization
into it; any exception is caught and logged, never re-raised.  `writeFails`
is whether an exception interrupts the write: if it does, the file is left
holding a strict prefix of the pretty-printed JSON text (possibly empty),
which is never itself valid JSON — modelled as `corrupt`.  There is no
temp-file-and-rename step in the source. -/
def save_data (data : NewsData) (writeFails : Bool) : FileState :=
  if writeFails then .corrupt else .content (dataToJson data)

/-- `start_scheduler` (lines 268-280), acting on the single global boolean
`scheduler_running` (line 244) that the background thread's loop
(`while scheduler_running`, lines 262-264) polls every 10 seconds.  Returns
the new flag and the function's return value: `True` means a new scheduler
thread was created and started, `False` means nothing happened (the UI then
reports "Scheduler is already running"). -/
def start_scheduler (scheduler_running : Bool) : Bool × Bool :=
  if !scheduler_running then (true, true) else (scheduler_running, false)

/-- `stop_scheduler` (lines 282-291): clears the flag and returns `True` when
the scheduler was running, otherwise leaves it alone and returns `False`
(the UI then reports "Scheduler is not running"). -/
def stop_scheduler (scheduler_running : Bool) : Bool × Bool :=
  if scheduler_running then (false, true) else (scheduler_running, false)

/-- A control-surface action on the scheduler. -/
inductive SchedOp where
  | start
  | stop
deriving DecidableEq, Repr

/-- Number of scheduler threads spawned while running a sequence of
start/stop actions from flag state `s`: `start_scheduler` creates a thread
exactly when it returns `True`. -/
def countSpawns : Bool → List SchedOp → Nat
  | _, [] => 0
  | s, SchedOp.start :: rest =>
    (if (start_scheduler s).2 then 1 else 0) + countSpawns (start_scheduler s).1 rest
  | s, SchedOp.stop :: rest => countSpawns (stop_scheduler s).1 rest

/-- Number of acknowledged stops (calls of `stop_scheduler` that returned
`True`, i.e. actually signalled a running loop to exit) along a sequence of
actions from flag state `s`. -/
def countStopAcks : Bool → List SchedOp → Nat
  | _, [] => 0
  | s, SchedOp.start :: rest => countStopAcks (start_scheduler s).1 rest
  | s, SchedOp.stop :: rest =>
    (if (stop_scheduler s).2 then 1 else 0) + countStopAcks (stop_scheduler s).1 rest

/-- Observable outcome of one `check_and_notify` cycle: the snapshot held by
the state store afterwards, the diff that was computed (`none` when the cycle
aborted before diffing), the message that was formatted and handed to the
notifier (`none` when the cycle aborted first), how many channel sends were
attempted, and whether delivery reported success. -/
structure CycleResult where
  stored : NewsData
  new_items : Option NewsData
  message : Option String
  sendAttempts : Nat
  delivered : Bool
deriving DecidableEq, Repr

/-- `check_and_notify` (lines 190-213).  `previous_data` is what
`load_previous_data()` returned, `current_data` what `scrape_website()`
returned, `channelOk` the behaviour of the Telegram channel this cycle, and
`current_date` the formatting date.  `if not current_data["news"]: return`
aborts the cycle; otherwise the message is formatted and sent
unconditionally (the `if new_items["news"]:` guard is commented out in the
source), and `save_data(current_data)` runs only under `if success:`.  The
`stored` field is the snapshot the store holds afterwards, assuming the
write itself does not fail (the write's own failure mode is modelled
separately by `save_data`). -/
def check_and_notify (config : Config) (previous_data current_data : NewsData)
    (channelOk : Bool) (current_date : String) : CycleResult :=
  if current_data.news = [] then
    { stored := previous_data, new_items := none, message := none
      sendAttempts := 0, delivered := false }
  else
    let new_items := find_new_items current_data previous_data
    let message := format_message current_date new_items previous_data
    let result := send_telegram_message message config channelOk
    if result.ok then
      { stored := current_data, new_items := some new_items
        message := some message, sendAttempts := result.attempts
        delivered := true }
    else
      { stored := previous_data, new_items := some new_items
        message := some message, sendAttempts := result.attempts
        delivered := false }

/-! ## Theorems -/

/-- C3: `find_new_items(C, P)` returns exactly the records of `C` that have
no structurally-equal counterpart in `P`, in the same relative order as they
appear in `C` (a sublist of `C.news`, with membership characterised and
multiplicities preserved for retained records); in particular
`find_new_items(C, C)` is empty for every `C`. -/
theorem find_new_items_spec (C P : NewsData) :
    List.Sublist (find_new_items C P).news C.news
    ∧ (∀ x, x ∈ (find_new_items C P).news ↔ (x ∈ C.news ∧ x ∉ P.news))
    ∧ (∀ x, (find_new_items C P).news.count x
        = if x ∈ P.news then 0 else C.news.count x)
    ∧ find_new_items C C = { news := [] } := by
  refine ⟨List.filter_sublist _, ?_, ?_, ?_⟩
  · intro x; simp [find_new_items]
  · intro x
    by_cases hx : x ∈ P.news
    · simp [find_new_items, hx, List.count_eq_zero]
    · simp [find_new_items, hx]
  · simp [find_new_items, List.filter_eq_nil_iff]

/-- Witness for C3 at the spec's end-to-end example: diffing
`[{title A}, {title B}]` against `[{title A}]` contains `{title B}`, and the
self-diff of `[{title A}]` is empty. -/
theorem find_new_items_spec_witness :
    ({ title := "B", url := none } : NewsItem)
      ∈ (find_new_items
          { news := [{ title := "A", url := none }, { title := "B", url := none }] }
          { news := [{ title := "A", url := none }] }).news
    ∧ find_new_items { news := [{ title := "A", url := none }] }
        { news := [{ title := "A", url := none }] } = { news := [] } := by
  constructor
  · exact ((find_new_items_spec
      { news := [{ title := "A", url := none }, { title := "B", url := none }] }
      { news := [{ title := "A", url := none }] }).2.1 _).mpr (by decide)
  · exact (find_new_items_spec { news := [{ title := "A", url := none }] }
      { news := [{ title := "A", url := none }] }).2.2.2

/-- C2: if the fetch of a cycle returns an empty record list, the cycle
aborts with no side effects: the stored snapshot is the pre-cycle value, no
diff is computed, no message is formatted or delivered, and no send is
attempted. -/
theorem check_and_notify_empty_fetch (config : Config) (prev cur : NewsData)
    (ok : Bool) (d : String) (h : cur.news = []) :
    check_and_notify config prev cur ok d
      = { stored := prev, new_items := none, message := none
          sendAttempts := 0, delivered := false } := by
  simp [check_and_notify, h]

/-- Witness for C2: an empty fetch against the stored snapshot
`[{title A}]` leaves it untouched and produces no message. -/
theorem check_and_notify_empty_fetch_witness :
    check_and_notify { telegram_token := "t", telegram_chat_id := "c", notification_time := "09:00" }
        { news := [{ title := "A", url := none }] } { news := [] } true "01-01-2026"
      = { stored := { news := [{ title := "A", url := none }] }, new_items := none
          message := none, sendAttempts := 0, delivered := false } :=
  check_and_notify_empty_fetch
    { telegram_token := "t", telegram_chat_id := "c", notification_time := "09:00" }
    { news := [{ title := "A", url := none }] } { news := [] } true "01-01-2026" rfl

/-- C1: in a cycle whose fetch returned a non-empty result, the stored
snapshot is replaced by the freshly fetched data when delivery reports
success, is left equal to its pre-cycle value when delivery reports failure,
and (whenever the two differ) equals the fetched data iff delivery
succeeded. -/
theorem check_and_notify_persistence (config : Config) (prev cur : NewsData)
    (ok : Bool) (d : String) (h : cur.news ≠ []) :
    ((check_and_notify config prev cur ok d).delivered = true →
      (check_and_notify config prev cur ok d).stored = cur)
    ∧ ((check_and_notify config prev cur ok d).delivered = false →
      (check_and_notify config prev cur ok d).stored = prev)
    ∧ (prev ≠ cur →
      ((check_and_notify config prev cur ok d).stored = cur
        ↔ (check_and_notify config prev cur ok d).delivered = true)) := by
  by_cases hs : (send_telegram_message
      (format_message d (find_new_items cur prev) prev) config ok).ok
  · simp [check_and_notify, h, hs]
  · simp [check_and_notify, h, hs]

/-- Witness for C1: with valid credentials and a healthy channel the fetched
snapshot is persisted; with a failing channel the prior snapshot survives. -/
theorem check_and_notify_persistence_witness :
    (check_and_notify { telegram_token := "t", telegram_chat_id := "c", notification_time := "09:00" }
      { news := [] } { news := [{ title := "A", url := none }] } true "01-01-2026").stored
      = { news := [{ title := "A", url := none }] }
    ∧ (check_and_notify { telegram_token := "t", telegram_chat_id := "c", notification_time := "09:00" }
      { news := [] } { news := [{ title := "A", url := none }] } false "01-01-2026").stored
      = { news := [] } := by
  constructor
  · exact (check_and_notify_persistence
      { telegram_token := "t", telegram_chat_id := "c", notification_time := "09:00" }
      { news := [] } { news := [{ title := "A", url := none }] } true "01-01-2026"
      (by decide)).1 (by decide)
  · exact (check_and_notify_persistence
      { telegram_token := "t", telegram_chat_id := "c", notification_time := "09:00" }
      { news := [] } { news := [{ title := "A", url := none }] } false "01-01-2026"
      (by decide)).2.1 (by decide)

/-- C5: with an empty bot token or an empty chat id, delivery returns failure
with zero channel sends (no network attempt) and the cycle leaves the stored
snapshot at its pre-cycle value; with both non-empty, delivery is attempted
exactly once with no retry, succeeding iff the channel does not raise (an
exception is caught and reported as failure). -/
theorem send_telegram_message_gating (config : Config) (m d : String)
    (prev cur : NewsData) (ok : Bool) :
    (config.telegram_token = "" ∨ config.telegram_chat_id = "" →
      send_telegram_message m config ok = { ok := false, attempts := 0 }
      ∧ (check_and_notify config prev cur ok d).stored = prev)
    ∧ (config.telegram_token ≠ "" → config.telegram_chat_id ≠ "" →
      send_telegram_message m config ok = { ok := ok, attempts := 1 }) := by
  constructor
  · intro hcred
    have hsend : ∀ msg, send_telegram_message msg config ok
        = { ok := false, attempts := 0 } := by
      intro msg
      rcases hcred with hc | hc <;>
        simp [send_telegram_message, send_telegram_message_async, hc]
    refine ⟨hsend m, ?_⟩
    by_cases hc : cur.news = []
    · simp [check_and_notify, hc]
    · simp [check_and_notify, hc, hsend]
  · intro h1 h2
    simp [send_telegram_message, send_telegram_message_async, h1, h2]

/-- Witness for C5: an empty token yields failure with zero send attempts
and the snapshot `[{title A}]` survives the cycle; full credentials with a
raising channel yield failure after exactly one attempt. -/
theorem send_telegram_message_gating_witness :
    send_telegram_message "m"
        { telegram_token := "", telegram_chat_id := "c", notification_time := "09:00" } true
      = { ok := false, attempts := 0 }
    ∧ (check_and_notify
        { telegram_token := "", telegram_chat_id := "c", notification_time := "09:00" }
        { news := [{ title := "A", url := none }] }
        { news := [{ title := "B", url := none }] } true "01-01-2026").stored
      = { news := [{ title := "A", url := none }] }
    ∧ send_telegram_message "m"
        { telegram_token := "t", telegram_chat_id := "c", notification_time := "09:00" } false
      = { ok := false, attempts := 1 } := by
  refine ⟨?_, ?_, ?_⟩
  · exact ((send_telegram_message_gating
      { telegram_token := "", telegram_chat_id := "c", notification_time := "09:00" }
      "m" "01-01-2026" { news := [] } { news := [] } true).1 (Or.inl rfl)).1
  · exact ((send_telegram_message_gating
      { telegram_token := "", telegram_chat_id := "c", notification_time := "09:00" }
      "m" "01-01-2026" { news := [{ title := "A", url := none }] }
      { news := [{ title := "B", url := none }] } true).1 (Or.inl rfl)).2
  · exact (send_telegram_message_gating
      { telegram_token := "t", telegram_chat_id := "c", notification_time := "09:00" }
      "m" "01-01-2026" { news := [] } { news := [] } false).2
      (by decide) (by decide)

/-- C8: running the cycle twice against the same non-empty fetch result,
with credentials configured and the channel healthy (so delivery reports
success both times), yields an empty "new items" set on the second run. -/
theorem check_and_notify_idempotent (config : Config) (prev cur : NewsData)
    (d1 d2 : String) (h : cur.news ≠ []) (h1 : config.telegram_token ≠ "")
    (h2 : config.telegram_chat_id ≠ "") :
    (check_and_notify config (check_and_notify config prev cur true d1).stored
        cur true d2).new_items = some { news := [] } := by
  have hstored : (check_and_notify config prev cur true d1).stored = cur := by
    simp [check_and_notify, h, send_telegram_message, send_telegram_message_async, h1, h2]
  rw [hstored]
  simp [check_and_notify, h, send_telegram_message, send_telegram_message_async,
    h1, h2, find_new_items, List.filter_eq_nil_iff]

/-- Witness for C8 at a concrete configuration and fetch result. -/
theorem check_and_notify_idempotent_witness :
    (check_and_notify
        { telegram_token := "t", telegram_chat_id := "c", notification_time := "09:00" }
        (check_and_notify
          { telegram_token := "t", telegram_chat_id := "c", notification_time := "09:00" }
          { news := [{ title := "A", url := none }] }
          { news := [{ title := "A", url := none }, { title := "B", url := none }] }
          true "01-01-2026").stored
        { news := [{ title := "A", url := none }, { title := "B", url := none }] }
        true "02-01-2026").new_items = some { news := [] } :=
  check_and_notify_idempotent
    { telegram_token := "t", telegram_chat_id := "c", notification_time := "09:00" }
    { news := [{ title := "A", url := none }] }
    { news := [{ title := "A", url := none }, { title := "B", url := none }] }
    "01-01-2026" "02-01-2026" (by decide) (by decide) (by decide)

/-- C6: the scheduler is driven by the single boolean flag: `start()` while
running reports failure ("already running") and spawns nothing, `stop()`
while stopped reports failure ("not running") and changes nothing, `start()`
from stopped enters the running state and spawns the loop thread, `stop()`
from running clears the flag the loop polls (signalling it to exit); and
along any sequence of control actions from the initial stopped state, at
most one more thread is ever spawned than stops have been acknowledged, so a
second competing timer loop is never created without stopping the first. -/
theorem scheduler_lifecycle_spec :
    start_scheduler true = (true, false)
    ∧ start_scheduler false = (true, true)
    ∧ stop_scheduler false = (false, false)
    ∧ stop_scheduler true = (false, true)
    ∧ ∀ ops : List SchedOp, countSpawns false ops ≤ countStopAcks false ops + 1 := by
  refine ⟨rfl, rfl, rfl, rfl, ?_⟩
  have key : ∀ (ops : List SchedOp) (s : Bool),
      countSpawns s ops ≤ countStopAcks s ops + (if s then 0 else 1) := by
    intro ops
    induction ops with
    | nil => intro s; simp [countSpawns, countStopAcks]
    | cons op rest ih =>
      intro s
      cases op with
      | start =>
        cases s with
        | false =>
          have := ih true
          simp [countSpawns, countStopAcks, start_scheduler] at *
          omega
        | true =>
          have := ih true
          simp [countSpawns, countStopAcks, start_scheduler] at *
          omega
      | stop =>
        cases s with
        | false =>
          have := ih false
          simp [countSpawns, countStopAcks, stop_scheduler] at *
          omega
        | true =>
          have := ih false
          simp [countSpawns, countStopAcks, stop_scheduler] at *
          omega
  intro ops
  have := key ops false
  simpa using this

/-- C7: the formatted message is, in order, the dated header, then a "new"
section exactly when `new_items` is non-empty (its entries numbered from 1,
each with its title and a link when a non-empty url is present), then the
"existing" section header always, then every pre-update existing item
numbered independently from 1 — or the placeholder line when `existing` is
empty — and finally the fixed footer.  The per-line equations exhibit the
1-based numbering stepping by one, and the `urlSuffix` equations the
optional-link rendering. -/
theorem format_message_structure :
    (∀ (d : String) (n p : NewsData),
      format_message d n p =
        ("*📢 SDE BU Notifications Update - " ++ d ++ "*\n\n")
        ++ (if n.news = [] then ""
            else "🔔 *NEW NOTIFICATIONS:*\n" ++ sepLine ++ newLines 1 n.news ++ "\n")
        ++ ("📋 *EXISTING NOTIFICATIONS:*\n" ++ sepLine)
        ++ (if p.news = [] then "No existing notifications.\n"
            else existingLines 1 p.news)
        ++ ("\n" ++ sepLine
            ++ "_Note: This is an automated notification from the SDE BU Scraper Service_"))
    ∧ (∀ (i : Nat) (item : NewsItem) (rest : List NewsItem),
        newLines i (item :: rest)
          = "*" ++ toString i ++ ".* " ++ item.title ++ urlSuffix item ++ "\n"
            ++ newLines (i + 1) rest)
    ∧ (∀ (i : Nat) (item : NewsItem) (rest : List NewsItem),
        existingLines i (item :: rest)
          = toString i ++ ". " ++ item.title ++ urlSuffix item ++ "\n"
            ++ existingLines (i + 1) rest)
    ∧ (∀ t : String, urlSuffix { title := t, url := none } = "")
    ∧ (∀ t u : String, urlSuffix { title := t, url := some u }
        = if u = "" then "" else " - [Link](" ++ u ++ ")") := by
  refine ⟨?_, fun i item rest => rfl, fun i item rest => rfl,
    fun t => rfl, fun t u => rfl⟩
  intro d n p
  have hemp : ("" : String).data = [] := rfl
  by_cases hn : n.news = [] <;> by_cases hp : p.news = [] <;>
    exact String.ext (by
      simp only [format_message, hn, hp, eq_self_iff_true, if_true, if_false,
        String.data_append, List.append_assoc, hemp, List.nil_append,
        List.append_nil])

/-- C9: every record produced by `scrape_website` carries no `url` field —
only a `title` holding the whitespace-trimmed anchor text of some scraped
element — so the optional-link branch of the message formatting renders
nothing for data that originated from a fetch. -/
theorem scrape_website_records (fetchOk sectionPresent : Bool)
    (anchors : List (Option String)) (item : NewsItem)
    (h : item ∈ (scrape_website fetchOk sectionPresent anchors).news) :
    item.url = none
    ∧ (∃ s, some s ∈ anchors ∧ item.title = s.trim)
    ∧ urlSuffix item = "" := by
  cases fetchOk with
  | false => simp [scrape_website] at h
  | true =>
    cases sectionPresent with
    | false => simp [scrape_website] at h
    | true =>
      simp only [scrape_website, if_true, List.mem_filterMap] at h
      obtain ⟨a, ha, hmap⟩ := h
      cases a with
      | none => simp at hmap
      | some s =>
        have hitem : ({ title := s.trim, url := none } : NewsItem) = item := by
          simpa using hmap
        subst hitem
        exact ⟨rfl, ⟨s, ha, rfl⟩, rfl⟩

/-- Witness for C9: extracting from a page whose single anchor reads
`" Exam Results "` yields one record, titled with the trimmed anchor text,
with no url and an empty link suffix. -/
theorem scrape_website_records_witness :
    ({ title := " Exam Results ".trim, url := none } : NewsItem)
      ∈ (scrape_website true true [some " Exam Results "]).news
    ∧ ({ title := " Exam Results ".trim, url := none } : NewsItem).url = none
    ∧ urlSuffix { title := " Exam Results ".trim, url := none } = "" := by
  have hmem : ({ title := " Exam Results ".trim, url := none } : NewsItem)
      ∈ (scrape_website true true [some " Exam Results "]).news := by
    simp [scrape_website]
  exact ⟨hmem, (scrape_website_records true true [some " Exam Results "] _ hmem).1,
    (scrape_website_records true true [some " Exam Results "] _ hmem).2.2⟩

/-- C10: `load_previous_data` returns the empty snapshot `{"news": []}` when
the state file is absent or fails to parse, and otherwise returns the parsed
JSON value as-is with no shape validation; in particular a file holding `{}`
loads without error to `{}`, whose `"news"` subscript then fails
(`KeyError`), while the well-shaped empty snapshot subscripts to its list. -/
theorem load_previous_data_spec :
    load_previous_data FileState.absent = Json.obj [("news", Json.arr [])]
    ∧ load_previous_data FileState.corrupt = Json.obj [("news", Json.arr [])]
    ∧ (∀ j, load_previous_data (FileState.content j) = j)
    ∧ load_previous_data (FileState.content (Json.obj [])) = Json.obj []
    ∧ jsonGet (Json.obj []) "news" = none
    ∧ jsonGet (Json.obj [("news", Json.arr [])]) "news" = some (Json.arr []) := by
  refine ⟨rfl, rfl, fun j => rfl, rfl, rfl, ?_⟩
  simp [jsonGet, List.lookup]

/-- C4 as stated is false: `save_data` opens the file in truncating write
mode with no temp-file-and-rename, so a write failure leaves neither the new
snapshot durable nor the prior file contents untouched — a subsequent load
sees the empty snapshot instead of the prior one.  Concretely, saving
`{"news": [{title B}]}` over a file holding `{"news": [{title A}]}` with the
write failing leaves a corrupt file whose load no longer yields the prior
value. -/
theorem save_data_not_atomic :
    ¬ (save_data { news := [{ title := "B", url := none }] } true
        = FileState.content (dataToJson { news := [{ title := "B", url := none }] })
      ∨ save_data { news := [{ title := "B", url := none }] } true
        = FileState.content (dataToJson { news := [{ title := "A", url := none }] })
      ∨ load_previous_data (save_data { news := [{ title := "B", url := none }] } true)
        = load_previous_data
            (FileState.content (dataToJson { news := [{ title := "A", url := none }] }))) := by
  intro h
  rcases h with h | h | h <;>
    simp [save_data, load_previous_data, dataToJson, itemToJson] at h

/-- C4 amended: when the write completes, `save_data` makes the new snapshot
fully durable (the file parses back to exactly its serialization); when the
write fails, the exception is swallowed and the file is left truncated or
partially written — not valid JSON — so a subsequent load falls back to the
empty snapshot rather than the prior contents. -/
theorem save_data_amended (d : NewsData) :
    save_data d false = FileState.content (dataToJson d)
    ∧ load_previous_data (save_data d false) = dataToJson d
    ∧ save_data d true = FileState.corrupt
    ∧ load_previous_data (save_data d true) = Json.obj [("news", Json.arr [])] := by
  exact ⟨rfl, rfl, rfl, rfl⟩
